import Mathlib

/-!
Verification development for the Shein order-automation bot.

The definitions below are a shallow embedding of the Python sources:
- `src/shein_bot.py` (class `SheinBot`): page interaction helpers
  (`_is_valid_product_page`, `_select_size`, `_select_color`, `_set_quantity`,
  `_click_add_to_cart`, `_confirm_cart_addition`), the per-order routine
  `add_product_to_cart`, the batch driver `process_pending_orders`, and the
  cookie persistence helpers `_load_cookies` / `_save_cookies`.
- `src/data_manager.py` (class `DataManager`): the order store operations
  `get_all_orders` and `update_order_status`.

Modelling conventions:
- A web page is a finite list of `Element`s in DOM order.  Playwright
  selector strings become Boolean predicates on `Element`; descendant
  combinators are encoded through the `ancestorClasses` field (the class
  attribute strings of the ancestors of an element).
- `page.wait_for_selector(sel, timeout)` waits for a match that is visible;
  it is modelled as the first element (in DOM order) satisfying the selector
  and visible, and `none` models the timeout.  `query_selector_all` is
  modelled as `List.filter` (no visibility requirement).
- `element.click()` performs Playwright actionability checks: it succeeds on
  a visible element unless the element is a form control bearing the
  `disabled` attribute, in which case the call times out and raises; every
  such raise is caught by the surrounding `except: continue` in the source.
- Exceptions raised by the environment are represented explicitly:
  `Page.raiseMsg` models an exception (navigation failure, browser crash)
  raised during the attempt and caught by the `except` of
  `add_product_to_cart`; `Page.confirmRaise` models an internal error inside
  `_confirm_cart_addition` caught by its own `except`; `Env.loopExn` models
  an exception raised in the per-order loop body of `process_pending_orders`
  and caught at its per-order `except`; `Env.topExn` models an exception
  raised outside that loop, caught by the top-level `except`.
- `datetime.now().isoformat()` is threaded as an explicit `now : String`.
- Python string truthiness (`if size:`) is the test for non-emptiness.
-/

/-! ### String helpers (Python `in`, `.upper()`, `.lower()`) -/

/-- Does the first character list occur at the head of the second? -/
def subFrom : List Char → List Char → Bool
  | [], _ => true
  | _ :: _, [] => false
  | c :: cs, d :: ds => c == d && subFrom cs ds

/-- Does the first character list occur anywhere inside the second? -/
def subSearch (n : List Char) : List Char → Bool
  | [] => n.isEmpty
  | d :: ds => subFrom n (d :: ds) || subSearch n ds

/-- Python `needle in hay` for strings: substring occurrence. -/
def hasSub (needle hay : String) : Bool :=
  subSearch needle.data hay.data

/-- Python `str.lower()`, computed on the character list. -/
def strLower (s : String) : String :=
  ⟨s.data.map Char.toLower⟩

/-- Python `str.upper()`, computed on the character list. -/
def strUpper (s : String) : String :=
  ⟨s.data.map Char.toUpper⟩

/-- Split a character list on a separator character. -/
def splitChars (sep : Char) : List Char → List (List Char)
  | [] => [[]]
  | c :: cs =>
    match splitChars sep cs with
    | [] => [[c]]
    | h :: t => if c == sep then [] :: h :: t else (c :: h) :: t

/-- The space-separated tokens of a class attribute string. -/
def classTokens (s : String) : List String :=
  (splitChars ' ' s.data).map (fun l => String.mk l)

/-! ### DOM model -/

/-- One page element: tag name, HTML attributes, own text content,
visibility, and the class-attribute strings of its ancestors (used to encode
descendant CSS combinators such as `.quantity-input input`). -/
structure Element where
  tag : String
  attrs : List (String × String)
  text : String
  visible : Bool
  ancestorClasses : List String
deriving DecidableEq

/-- Model of `get_attribute`: the value of an attribute, if present. -/
def attrOf (e : Element) (a : String) : Option String :=
  (e.attrs.find? (fun p => p.1 == a)).map (fun p => p.2)

/-- Attribute value with an empty-string default, as in the source idiom of a get_attribute call followed by an or with the empty string. -/
def attrD (e : Element) (a : String) : String :=
  (attrOf e a).getD ""

/-- Is the attribute present at all (CSS `[attr]`)? -/
def hasAttr (e : Element) (a : String) : Bool :=
  (attrOf e a).isSome

/-- Python truthiness of `get_attribute(a)`: present with a non-empty value. -/
def pyTruthyAttr (e : Element) (a : String) : Bool :=
  match attrOf e a with
  | some v => !(v == "")
  | none => false

/-- The `class` attribute string (empty when absent). -/
def className (e : Element) : String :=
  attrD e "class"

/-- CSS class-token membership (`.foo` selector). -/
def hasClassToken (e : Element) (c : String) : Bool :=
  (classTokens (className e)).contains c

/-- Playwright `:has-text("t")`: case-insensitive substring of the text. -/
def hasTextCI (t : String) (e : Element) : Bool :=
  hasSub (strLower t) (strLower e.text)

/-- Substring test on an optional attribute value (CSS `[a*="v"]`). -/
def optHasSub (v : Option String) (needle : String) : Bool :=
  match v with
  | some s => hasSub needle s
  | none => false

/-- Tags whose `disabled` attribute Playwright honours in its
"element is enabled" actionability check. -/
def isFormTag (t : String) : Bool :=
  t == "button" || t == "input" || t == "select" || t == "textarea" ||
  t == "option" || t == "optgroup"

/-- Does `element.click()` succeed?  Playwright auto-waits for the element to
be visible and enabled; a form control carrying the `disabled` attribute
makes the click time out (raising, which the callers catch). -/
def clickOk (e : Element) : Bool :=
  e.visible && !(isFormTag e.tag && hasAttr e "disabled")

/-- A product page: its elements in DOM order, its URL, and the explicit
exception oracles described in the header comment. -/
structure Page where
  elements : List Element
  url : String
  raiseMsg : Option String
  confirmRaise : Bool
deriving DecidableEq

/-- Model of `page.wait_for_selector(sel, timeout)`: first visible match, or `none`
when the wait times out (the callers catch the raised timeout). -/
def waitForSel (page : Page) (sel : Element → Bool) : Option Element :=
  page.elements.find? (fun e => sel e && e.visible)

/-! ### Selector chains from `shein_bot.py` -/

/-- The `_is_valid_product_page` indicators (lines 201-207). -/
def productIndicators : List (Element → Bool) :=
  [ fun e => attrOf e "data-testid" == some "product-title",
    fun e => hasClassToken e "product-intro__head-name",
    fun e => hasClassToken e "goods-title",
    fun e => e.tag == "h1" && hasSub "product" (className e),
    fun e => hasClassToken e "product-name" ]

/-- Loop "for indicator in ...: wait_for_selector; if found: return True". -/
def anyFound (page : Page) : List (Element → Bool) → Bool
  | [] => false
  | sel :: rest =>
    match waitForSel page sel with
    | some _ => true
    | none => anyFound page rest

/-- Model of `SheinBot._is_valid_product_page` (lines 197-226). -/
def is_valid_product_page (page : Page) : Bool :=
  if anyFound page productIndicators then true
  else hasSub "/item" page.url || hasSub "/product" page.url

/-- The six size selectors of `_select_size` (lines 232-239), in declared
order, for a target size `t`:
1. `[data-testid="size-t"]`
2. `button[title="t"]`
3. `span:has-text("t"):not([class*="disabled"])`
4. `.size-item:has-text("t"):not(.disabled)`
5. `[class*="size"]:has-text("t"):not([class*="disabled"])`
6. `button:has-text("t"):not([disabled])` -/
def sizeSelectors (t : String) : List (Element → Bool) :=
  [ fun e => attrOf e "data-testid" == some ("size-" ++ t),
    fun e => e.tag == "button" && attrOf e "title" == some t,
    fun e => e.tag == "span" && hasTextCI t e && !hasSub "disabled" (className e),
    fun e => hasClassToken e "size-item" && hasTextCI t e && !hasClassToken e "disabled",
    fun e => hasSub "size" (className e) && hasTextCI t e && !hasSub "disabled" (className e),
    fun e => e.tag == "button" && hasTextCI t e && !hasAttr e "disabled" ]

/-- First tier of `_select_size` (lines 241-250): for each selector, wait for
a visible match and click it; a click that raises (actionability) falls into
`except: continue`. Returns the clicked element on success. -/
def selectSizeChain (page : Page) : List (Element → Bool) → Bool × List Element
  | [] => (false, [])
  | sel :: rest =>
    match waitForSel page sel with
    | some e => if clickOk e then (true, [e]) else selectSizeChain page rest
    | none => selectSizeChain page rest

/-- The `query_selector_all` scan set of the alternative tier (line 253):
`[class*="size"], [data-testid*="size"], button, span`. -/
def altSizeScanSel (e : Element) : Bool :=
  hasSub "size" (className e) || optHasSub (attrOf e "data-testid") "size" ||
  e.tag == "button" || e.tag == "span"

/-- Alternative tier of `_select_size` (lines 253-268): scan all candidate
elements; on a text match, skip elements with a truthy `disabled` attribute
or a class containing "disabled"; a raising click continues with the next
element. -/
def selectSizeAlt (t : String) : List Element → Bool × List Element
  | [] => (false, [])
  | e :: rest =>
    if !(e.text == "") && hasSub (strUpper t) (strUpper e.text) then
      if !pyTruthyAttr e "disabled" && !hasSub "disabled" (strLower (className e)) then
        if clickOk e then (true, [e]) else selectSizeAlt t rest
      else selectSizeAlt t rest
    else selectSizeAlt t rest

/-- Model of `SheinBot._select_size` (lines 228-275). -/
def select_size (page : Page) (t : String) : Bool × List Element :=
  let first := selectSizeChain page (sizeSelectors t)
  if first.1 then first
  else selectSizeAlt t (page.elements.filter altSizeScanSel)

/-- The five color selectors of `_select_color` (lines 284-290):
1. `[data-testid="color-c"]`
2. `[title*="c"]`
3. `[alt*="c"]`
4. `.color-item:has-text("c")`
5. `[class*="color"], [data-testid*="color"], [class*="swatch"]` -/
def colorSelectors (c : String) : List (Element → Bool) :=
  [ fun e => attrOf e "data-testid" == some ("color-" ++ c),
    fun e => optHasSub (attrOf e "title") c,
    fun e => optHasSub (attrOf e "alt") c,
    fun e => hasClassToken e "color-item" && hasTextCI c e,
    fun e => hasSub "color" (className e) || optHasSub (attrOf e "data-testid") "color" ||
             hasSub "swatch" (className e) ]

/-- Inner element scan of `_select_color` (lines 296-304): the first element
whose title, alt or text contains the lowercased target color. -/
def colorScanElems (cl : String) : List Element → Option Element
  | [] => none
  | e :: rest =>
    if hasSub cl (strLower (attrD e "title")) || hasSub cl (strLower (attrD e "alt")) ||
       hasSub cl (strLower e.text) then some e
    else colorScanElems cl rest

/-- Selector loop of `_select_color` (lines 292-312): per selector, scan its
`query_selector_all` results; a raising click aborts the element loop of that selector
loop and `except: continue` moves to the next selector. -/
def selectColorChain (page : Page) (cl : String) : List (Element → Bool) → Bool × List Element
  | [] => (false, [])
  | sel :: rest =>
    match colorScanElems cl (page.elements.filter sel) with
    | some e => if clickOk e then (true, [e]) else selectColorChain page cl rest
    | none => selectColorChain page cl rest

/-- Model of `SheinBot._select_color` (lines 277-319). -/
def select_color (page : Page) (c : String) : Bool × List Element :=
  selectColorChain page (strLower c) (colorSelectors c)

/-- Quantity DOM interactions recorded by the model of `_set_quantity`. -/
inductive QtyAct where
  | qclick (e : Element)
  | qfill (e : Element) (s : String)
  | qtype (e : Element) (s : String)
  | qplus (e : Element)
  | qsleep
deriving DecidableEq

/-- The five typed-input selectors of `_set_quantity` (lines 325-331):
1. `[data-testid="quantity-input"]`
2. `input[name="quantity"]`
3. `input[class*="quantity"]`
4. `.quantity-input input`
5. `[class*="qty"] input` -/
def qtySelectors : List (Element → Bool) :=
  [ fun e => attrOf e "data-testid" == some "quantity-input",
    fun e => e.tag == "input" && attrOf e "name" == some "quantity",
    fun e => e.tag == "input" && hasSub "quantity" (className e),
    fun e => e.tag == "input" && e.ancestorClasses.any (fun a => (classTokens a).contains "quantity-input"),
    fun e => e.tag == "input" && e.ancestorClasses.any (fun a => hasSub "qty" a) ]

/-- The four stepper selectors of `_set_quantity` (lines 348-353):
1. `[data-testid="quantity-plus"]`
2. `button[class*="plus"]`
3. `button:has-text("+")`
4. `.quantity-plus` -/
def plusSelectors : List (Element → Bool) :=
  [ fun e => attrOf e "data-testid" == some "quantity-plus",
    fun e => e.tag == "button" && hasSub "plus" (className e),
    fun e => e.tag == "button" && hasTextCI "+" e,
    fun e => hasClassToken e "quantity-plus" ]

/-- Typed tier of `_set_quantity` (lines 333-345): click the resolved input,
clear it, type the quantity, then settle; a raising click continues with the
next selector. -/
def setQtyTyped (page : Page) (quantity : Nat) : List (Element → Bool) → Option (List QtyAct)
  | [] => none
  | sel :: rest =>
    match waitForSel page sel with
    | some e =>
      if clickOk e then
        some [QtyAct.qclick e, QtyAct.qfill e "", QtyAct.qtype e (toString quantity), QtyAct.qsleep]
      else setQtyTyped page quantity rest
    | none => setQtyTyped page quantity rest

/-- The stepper loop `for _ in range(quantity - 1): plus_button.click(); sleep(0.5)`. -/
def plusLoop (p : Element) : Nat → List QtyAct
  | 0 => []
  | k + 1 => QtyAct.qplus p :: QtyAct.qsleep :: plusLoop p k

/-- Stepper tier of `_set_quantity` (lines 355-367): resolve an increment
control and click it `quantity - 1` times; with `quantity - 1 = 0` the loop
body never runs (the control is not clicked); a raising first click
continues with the next selector. -/
def setQtyPlus (page : Page) (quantity : Nat) : List (Element → Bool) → Option (List QtyAct)
  | [] => none
  | sel :: rest =>
    match waitForSel page sel with
    | some p =>
      if quantity - 1 == 0 then some []
      else if clickOk p then some (plusLoop p (quantity - 1))
      else setQtyPlus page quantity rest
    | none => setQtyPlus page quantity rest

/-- Model of `SheinBot._set_quantity` (lines 321-374). -/
def set_quantity (page : Page) (quantity : Nat) : Bool × List QtyAct :=
  match setQtyTyped page quantity qtySelectors with
  | some acts => (true, acts)
  | none =>
    match setQtyPlus page quantity plusSelectors with
    | some acts => (true, acts)
    | none => (false, [])

/-- Number of increment-control invocations in a quantity action list. -/
def countQplus : List QtyAct → Nat
  | [] => 0
  | QtyAct.qplus _ :: rest => countQplus rest + 1
  | _ :: rest => countQplus rest

/-- The seven add-to-cart selectors of `_click_add_to_cart` (lines 380-388):
1. `[data-testid="add-to-cart"]`
2. `button:has-text("Ajouter au panier")`
3. `button:has-text("Add to cart")`
4. `button:has-text("AJOUTER")`
5. `.add-to-cart-btn`
6. `[class*="add-cart"]`
7. `button[class*="cart"]` -/
def cartSelectors : List (Element → Bool) :=
  [ fun e => attrOf e "data-testid" == some "add-to-cart",
    fun e => e.tag == "button" && hasTextCI "Ajouter au panier" e,
    fun e => e.tag == "button" && hasTextCI "Add to cart" e,
    fun e => e.tag == "button" && hasTextCI "AJOUTER" e,
    fun e => hasClassToken e "add-to-cart-btn",
    fun e => hasSub "add-cart" (className e),
    fun e => e.tag == "button" && hasSub "cart" (className e) ]

/-- Selector loop of `_click_add_to_cart` (lines 390-402): for a resolved
element, a truthy `disabled` attribute skips the click (the loop continues);
otherwise the click happens, and a raising click continues as well. -/
def clickCartChain (page : Page) : List (Element → Bool) → Bool × List Element
  | [] => (false, [])
  | sel :: rest =>
    match waitForSel page sel with
    | some e =>
      if pyTruthyAttr e "disabled" then clickCartChain page rest
      else if clickOk e then (true, [e])
      else clickCartChain page rest
    | none => clickCartChain page rest

/-- Model of `SheinBot._click_add_to_cart` (lines 376-409). -/
def click_add_to_cart (page : Page) : Bool × List Element :=
  clickCartChain page cartSelectors

/-- The six success indicators of `_confirm_cart_addition` (lines 415-422):
`text=...` selectors are case-insensitive substring matches on text. -/
def successIndicators : List (Element → Bool) :=
  [ fun e => hasTextCI "Ajouté au panier" e,
    fun e => hasTextCI "Added to cart" e,
    fun e => hasTextCI "Produit ajouté" e,
    fun e => attrOf e "data-testid" == some "cart-success",
    fun e => hasClassToken e "success-message",
    fun e => hasSub "success" (className e) ]

/-- The four modal selectors of `_confirm_cart_addition` (lines 434-439). -/
def modalSelectors : List (Element → Bool) :=
  [ fun e => attrOf e "role" == some "dialog",
    fun e => hasClassToken e "modal",
    fun e => hasClassToken e "popup",
    fun e => hasSub "overlay" (className e) ]

/-- Model of `SheinBot._confirm_cart_addition` (lines 411-457): explicit success text,
else modal/overlay, else wait and report success anyway; only an internal
error (modelled by `confirmRaise`) yields `false`. -/
def confirm_cart_addition (page : Page) : Bool :=
  if page.confirmRaise then false
  else if anyFound page successIndicators then true
  else if anyFound page modalSelectors then true
  else true

/-! ### The per-order attempt: `add_product_to_cart` -/

/-- The DOM interactions performed by one `add_product_to_cart` attempt.
`cartCall = none` means `_click_add_to_cart` was never invoked. -/
structure AttemptTrace where
  sizeClicks : List Element
  colorClicks : List Element
  qtyActs : List QtyAct
  cartCall : Option (List Element)
deriving DecidableEq

/-- Model of `SheinBot.add_product_to_cart` (lines 149-195).  The `(Bool × String)`
component is the returned `(success, message)` pair; the trace records the
DOM interactions.  `page.raiseMsg = some e` models an exception (navigation
failure, browser crash, ...) raised during the attempt and caught by the
`except` at lines 192-195. -/
def add_product_to_cart (page : Page) (size color : String) (quantity : Nat) :
    (Bool × String) × AttemptTrace :=
  match page.raiseMsg with
  | some e => ((false, "Erreur ajout produit: " ++ e), ⟨[], [], [], none⟩)
  | none =>
    if is_valid_product_page page then
      let sizeRes := if size == "" then (true, ([] : List Element)) else select_size page size
      if sizeRes.1 then
        let colorRes := if color == "" then (true, ([] : List Element)) else select_color page color
        let qtyActs := if 1 < quantity then (set_quantity page quantity).2 else []
        let cartRes := click_add_to_cart page
        if cartRes.1 then
          if confirm_cart_addition page then
            ((true, "Produit ajouté avec succès"), ⟨sizeRes.2, colorRes.2, qtyActs, some cartRes.2⟩)
          else
            ((false, "Ajout au panier non confirmé"), ⟨sizeRes.2, colorRes.2, qtyActs, some cartRes.2⟩)
        else
          ((false, "Échec ajout au panier - bouton non trouvé ou non cliquable"),
            ⟨sizeRes.2, colorRes.2, qtyActs, some cartRes.2⟩)
      else
        ((false, "Taille \x27" ++ size ++ "\x27 non trouvée ou non sélectionnable"),
          ⟨sizeRes.2, [], [], none⟩)
    else
      ((false, "Page produit invalide ou produit non trouvé"), ⟨[], [], [], none⟩)

/-! ### The order store: `data_manager.py` -/

/-- One row of the `Commandes` sheet of the Excel order store
(columns declared in `DataManager._create_orders_excel`, lines 54-58). -/
structure OrderRow where
  order_id : String
  user_phone : String
  user_name : String
  product_url : String
  size : String
  color : String
  quantity : Nat
  estimated_price : Nat
  status : String
  created_at : String
  processed_at : String
  notes : String
deriving DecidableEq

/-- The row mutation of `DataManager.update_order_status` (lines 228-231):
set `status` and `processed_at`; write `notes` only when non-empty. -/
def applyUpd (status notes now : String) (r : OrderRow) : OrderRow :=
  { r with status := status, processed_at := now,
           notes := if notes == "" then r.notes else notes }

/-- Model of `DataManager.update_order_status` (lines 220-246): when some row has the
given id, set `status` and `processed_at` on every matching row, write
`notes` there only when non-empty, and return `True`; otherwise return
`False` and leave the store unchanged. -/
def update_order_status (store : List OrderRow) (oid status notes now : String) :
    Bool × List OrderRow :=
  if store.any (fun r => r.order_id == oid) then
    (true, store.map (fun r => if r.order_id == oid then applyUpd status notes now r else r))
  else
    (false, store)

/-- Model of `DataManager.get_all_orders(status="pending")` (lines 206-218):
the rows whose status is `pending`, in stored order. -/
def pendingOrders (store : List OrderRow) : List OrderRow :=
  store.filter (fun r => r.status == "pending")

/-- Is some row with this id present (`mask.any()`)? -/
def present (store : List OrderRow) (oid : String) : Bool :=
  store.any (fun r => r.order_id == oid)

/-! ### The batch driver: `process_pending_orders` -/

/-- The environment a batch run interacts with: `pages` maps a product URL
to the page the navigation yields; `loopExn` models an exception raised in
the per-order loop body (caught at lines 505-507, counted as a failure with
no status write); `topExn` models an exception outside the loop (caught at
lines 512-514, returning all-zero counts). -/
structure Env where
  pages : String → Page
  loopExn : OrderRow → Bool
  topExn : Bool

/-- The `(success, message).1` of the attempt the batch makes for a row. -/
def attemptOk (env : Env) (r : OrderRow) : Bool :=
  ((add_product_to_cart (env.pages r.product_url) r.size r.color r.quantity).1).1

/-- The `(success, message).2` of the attempt the batch makes for a row. -/
def attemptMsg (env : Env) (r : OrderRow) : String :=
  ((add_product_to_cart (env.pages r.product_url) r.size r.color r.quantity).1).2

/-- Did the loop body both run without exception and succeed for this row? -/
def okP (env : Env) (r : OrderRow) : Bool :=
  !env.loopExn r && attemptOk env r

/-- Accumulator of the per-order loop: the evolving store, the two counters,
and the status writes performed so far (order id, status, notes). -/
structure BatchState where
  store : List OrderRow
  success : Nat
  failed : Nat
  writes : List (String × String × String)
deriving DecidableEq

/-- One iteration of the loop of `process_pending_orders` (lines 472-507). -/
def orderStep (env : Env) (now : String) (st : BatchState) (r : OrderRow) : BatchState :=
  if env.loopExn r then
    { st with failed := st.failed + 1 }
  else if attemptOk env r then
    let u := update_order_status st.store r.order_id "completed" "Ajouté automatiquement au panier" now
    ⟨u.2, st.success + 1, st.failed,
      st.writes ++ (if u.1 then [(r.order_id, "completed", "Ajouté automatiquement au panier")] else [])⟩
  else
    let u := update_order_status st.store r.order_id "failed" ("Erreur: " ++ attemptMsg env r) now
    ⟨u.2, st.success, st.failed + 1,
      st.writes ++ (if u.1 then [(r.order_id, "failed", "Erreur: " ++ attemptMsg env r)] else [])⟩

/-- The returned counts dictionary `{"success": _, "failed": _, "total": _}`. -/
structure Results where
  success : Nat
  failed : Nat
  total : Nat
deriving DecidableEq

/-- The observable outcome of one batch run: the returned counts, the final
order store, and the status writes performed on it. -/
structure ProcessOutcome where
  counts : Results
  store : List OrderRow
  writes : List (String × String × String)
deriving DecidableEq

/-- Model of `SheinBot.process_pending_orders` (lines 459-514). -/
def process_pending_orders (env : Env) (store : List OrderRow) (now : String) :
    ProcessOutcome :=
  if env.topExn then ⟨⟨0, 0, 0⟩, store, []⟩
  else
    let pending := pendingOrders store
    if pending.isEmpty then ⟨⟨0, 0, 0⟩, store, []⟩
    else
      let fin := pending.foldl (orderStep env now) ⟨store, 0, 0, []⟩
      ⟨⟨fin.success, fin.failed, pending.length⟩, fin.store, fin.writes⟩

/-! ### Cookie persistence: `_save_cookies` / `_load_cookies` -/

/-- One cookie descriptor as serialised to the session file. -/
structure CookieRecord where
  name : String
  value : String
  domain : String
  path : String
  expires : Int
  httpOnly : Bool
  secure : Bool
  sameSite : String
deriving DecidableEq

/-- Model of `SheinBot._save_cookies` (lines 96-108): when a context exists, its
cookie set overwrites the file (`json.dump`); otherwise nothing is written.
The file system is the `Option` of the stored cookie list. -/
def save_cookies (context : Option (List CookieRecord))
    (fs : Option (List CookieRecord)) : Option (List CookieRecord) :=
  match context with
  | some cookies => some cookies
  | none => fs

/-- Model of `SheinBot._load_cookies` (lines 81-94): when the cookie file exists its
content is loaded into the context; otherwise nothing is added (no error).
The result is the cookie set added to the context. -/
def load_cookies (fs : Option (List CookieRecord)) : List CookieRecord :=
  match fs with
  | some cookies => cookies
  | none => []

/-! ### Concrete fixtures (pages, rows, environments) -/

/-- A product-title heading, making a page a valid product page. -/
def titleElem : Element :=
  ⟨"h1", [("data-testid", "product-title")], "Produit", true, []⟩

/-- An enabled, visible add-to-cart button. -/
def cartBtn : Element :=
  ⟨"button", [("data-testid", "add-to-cart")], "Ajouter au panier", true, []⟩

/-- A valid product page with a working add-to-cart button and no size
controls: a size token such as "M" is unresolvable on it. -/
def goodPage : Page :=
  ⟨[titleElem, cartBtn], "https://shein.example/item/1", none, false⟩

/-- A page whose navigation raises a browser-level fatal error. -/
def crashPage : Page :=
  ⟨[], "https://shein.example/item/9", some "Browser crash", false⟩

/-- A visible element matching the first size selector for "M" while marked
disabled by its style class only (a `div`, so no actionability obstacle). -/
def cexSizeElem : Element :=
  ⟨"div", [("data-testid", "size-M"), ("class", "disabled")], "M", true, []⟩

/-- A page whose only size control is `cexSizeElem`. -/
def cexSizePage : Page :=
  ⟨[cexSizeElem], "https://shein.example/item/3", none, false⟩

/-- A visible button carrying the `disabled` attribute that matches both
size and add-to-cart selectors. -/
def disabledBtn : Element :=
  ⟨"button", [("disabled", "true"), ("data-testid", "size-M"), ("class", "add-to-cart-btn")],
    "M", true, []⟩

/-- A page on which every element is a disabled form control. -/
def allDisabledPage : Page :=
  ⟨[disabledBtn], "https://shein.example/item/4", none, false⟩

/-- A visible, enabled quantity increment button (`button[class*="plus"]`). -/
def plusBtn : Element :=
  ⟨"button", [("class", "plus-btn")], "+", true, []⟩

/-- A page with a stepper control and no typed quantity input. -/
def stepperPage : Page :=
  ⟨[plusBtn], "https://shein.example/item/5", none, false⟩

/-- A page with no elements at all (and no internal error). -/
def emptyPage : Page :=
  ⟨[], "https://shein.example/item/6", none, false⟩

/-- Order-row constructor for fixtures. -/
def mkRow (oid url size color : String) (qty : Nat) (status : String) : OrderRow :=
  ⟨oid, "+221700000001", "Client", url, size, color, qty, 0, status,
    "2025-01-01T00:00:00", "", ""⟩

/-- A pending order with no size requirement, served by `goodPage`. -/
def rowOkA : OrderRow :=
  mkRow "CMD1" "https://shein.example/item/1" "" "" 1 "pending"

/-- A pending order requesting size "M", unresolvable on `goodPage`. -/
def rowSizeK : OrderRow :=
  mkRow "CMD2" "https://shein.example/item/1" "M" "" 1 "pending"

/-- A pending order whose navigation hits the crashing page. -/
def rowCrash1 : OrderRow :=
  mkRow "ORD1" "https://shein.example/item/9" "" "" 1 "pending"

/-- A pending order served by `goodPage`, queued after the crashing one. -/
def rowOk2 : OrderRow :=
  mkRow "ORD2" "https://shein.example/item/1" "" "" 1 "pending"

/-- Environment in which every URL yields `goodPage` and nothing raises. -/
def envOk : Env :=
  ⟨fun _ => goodPage, fun _ => false, false⟩

/-- Environment in which the crashing URL yields `crashPage`. -/
def envCrash : Env :=
  ⟨fun u => if u == "https://shein.example/item/9" then crashPage else goodPage,
    fun _ => false, false⟩

/-- Environment whose batch run raises outside the per-order loop. -/
def envTop : Env :=
  ⟨fun _ => goodPage, fun _ => false, true⟩

/-- A one-order backlog. -/
def storeOne : List OrderRow := [rowOkA]

/-- A two-order backlog whose second order has an unresolvable size. -/
def storeTwo : List OrderRow := [rowOkA, rowSizeK]

/-- A two-order backlog whose first order hits the crashing page. -/
def storeCrash : List OrderRow := [rowCrash1, rowOk2]

/-- A session-file cookie fixture. -/
def ckFix : CookieRecord :=
  ⟨"sessionid", "abc123", ".shein.com", "/", 1767225600, true, true, "Lax"⟩

/-- The status write the loop performs for a non-raising order: id, the
written status, and the written note. -/
def writeOf (env : Env) (p : OrderRow) : String × String × String :=
  (p.order_id,
   if attemptOk env p then "completed" else "failed",
   if attemptOk env p then "Ajouté automatiquement au panier"
   else "Erreur: " ++ attemptMsg env p)

/-- Fixture: `rowCrash1` as left by the crashing batch run at time "T". -/
def rowCrash1Failed : OrderRow :=
  { rowCrash1 with
      status := "failed", processed_at := "T",
      notes := "Erreur: Erreur ajout produit: Browser crash" }

/-- Fixture: `rowOk2` as left by the crashing batch run at time "T". -/
def rowOk2Completed : OrderRow :=
  { rowOk2 with
      status := "completed", processed_at := "T",
      notes := "Ajouté automatiquement au panier" }

/-! ### Helper lemmas: substrings -/

theorem subFrom_self_append (n b : List Char) : subFrom n (n ++ b) = true := by
  induction n with
  | nil => rfl
  | cons c cs ih => simp [subFrom, ih]

theorem subSearch_mid (a n b : List Char) : subSearch n (a ++ (n ++ b)) = true := by
  induction a with
  | nil =>
    cases h : n ++ b with
    | nil =>
      rcases List.append_eq_nil.mp h with ⟨hn, _⟩
      simp [subSearch, hn]
    | cons d ds =>
      simp only [List.nil_append, h, subSearch]
      rw [← h, subFrom_self_append]
      simp
  | cons c cs ih =>
    simp [subSearch, ih]

theorem hasSub_mid (a s b : String) : hasSub s (a ++ s ++ b) = true := by
  have h : (a ++ s ++ b).data = a.data ++ (s.data ++ b.data) := by
    simp [String.data_append]
  rw [hasSub, h]
  exact subSearch_mid a.data s.data b.data

theorem erreur_append_ne (m : String) : ("Erreur: " ++ m) ≠ "" := by
  intro h
  have hl := congrArg String.length h
  rw [String.length_append] at hl
  have h8 : ("Erreur: ").length = 8 := rfl
  have h0 : ("" : String).length = 0 := rfl
  omega

/-! ### Helper lemmas: the order store -/

theorem applyUpd_order_id (s n now : String) (r : OrderRow) :
    (applyUpd s n now r).order_id = r.order_id := rfl

theorem update_fst (store : List OrderRow) (oid s n now : String) :
    (update_order_status store oid s n now).1 = present store oid := by
  unfold update_order_status present
  split <;> simp_all

theorem update_mem_frame {store : List OrderRow} {oid s n now : String} {row : OrderRow}
    (hmem : row ∈ (update_order_status store oid s n now).2)
    (hne : row.order_id ≠ oid) : row ∈ store := by
  unfold update_order_status at hmem
  split at hmem
  · obtain ⟨r0, hr0, hfr⟩ := List.mem_map.mp hmem
    by_cases hc : (r0.order_id == oid) = true
    · rw [if_pos hc] at hfr
      subst hfr
      exact absurd (beq_iff_eq.mp hc) hne
    · rw [if_neg hc] at hfr
      subst hfr
      exact hr0
  · exact hmem

theorem update_sets {store : List OrderRow} {oid s n now : String} {row : OrderRow}
    (hmem : row ∈ (update_order_status store oid s n now).2)
    (heq : row.order_id = oid) :
    row.status = s ∧ row.processed_at = now ∧ (n ≠ "" → row.notes = n) := by
  unfold update_order_status at hmem
  split at hmem
  · obtain ⟨r0, hr0, hfr⟩ := List.mem_map.mp hmem
    by_cases hc : (r0.order_id == oid) = true
    · rw [if_pos hc] at hfr
      subst hfr
      refine ⟨rfl, rfl, fun hn => ?_⟩
      simp [applyUpd, hn]
    · rw [if_neg hc] at hfr
      subst hfr
      exact absurd (beq_iff_eq.mpr heq) hc
  · rename_i h
    exact absurd (List.any_eq_true.mpr ⟨row, hmem, by simp [heq]⟩) h

theorem present_map (store : List OrderRow) (oid s n now id2 : String) :
    present (store.map (fun r => if r.order_id == oid then applyUpd s n now r else r)) id2
      = present store id2 := by
  induction store with
  | nil => rfl
  | cons r rest ih =>
    simp only [present, List.map_cons, List.any_cons] at *
    rw [ih]
    congr 1
    by_cases hc : (r.order_id == oid) = true
    · rw [if_pos hc, applyUpd_order_id]
    · rw [if_neg hc]

theorem update_present (store : List OrderRow) (oid s n now id2 : String) :
    present (update_order_status store oid s n now).2 id2 = present store id2 := by
  unfold update_order_status
  split
  · exact present_map store oid s n now id2
  · rfl

/-! ### Helper lemmas: the batch loop -/

theorem countP_split {α : Type} (l : List α) (p : α → Bool) :
    l.countP p + l.countP (fun a => !p a) = l.length := by
  induction l with
  | nil => simp
  | cons a rest ih =>
    cases h : p a <;> simp [List.countP_cons, h] <;> omega

theorem foldl_success (env : Env) (now : String) :
    ∀ (l : List OrderRow) (st : BatchState),
      (l.foldl (orderStep env now) st).success = st.success + l.countP (okP env) := by
  intro l
  induction l with
  | nil => intro st; simp
  | cons r rest ih =>
    intro st
    rw [List.foldl_cons, ih, List.countP_cons]
    by_cases hex : env.loopExn r = true
    · simp [orderStep, okP, hex]
    · have hex' : env.loopExn r = false := by simpa using hex
      by_cases hok : attemptOk env r = true
      · simp [orderStep, okP, hex', hok]
        omega
      · have hok' : attemptOk env r = false := by simpa using hok
        simp [orderStep, okP, hex', hok']

theorem foldl_failed (env : Env) (now : String) :
    ∀ (l : List OrderRow) (st : BatchState),
      (l.foldl (orderStep env now) st).failed = st.failed + l.countP (fun p => !okP env p) := by
  intro l
  induction l with
  | nil => intro st; simp
  | cons r rest ih =>
    intro st
    rw [List.foldl_cons, ih, List.countP_cons]
    by_cases hex : env.loopExn r = true
    · simp [orderStep, okP, hex]
      omega
    · have hex' : env.loopExn r = false := by simpa using hex
      by_cases hok : attemptOk env r = true
      · simp [orderStep, okP, hex', hok]
      · have hok' : attemptOk env r = false := by simpa using hok
        simp [orderStep, okP, hex', hok']
        omega

theorem orderStep_mem_frame {env : Env} {now : String} {st : BatchState}
    {r row : OrderRow}
    (hmem : row ∈ (orderStep env now st r).store)
    (hne : row.order_id ≠ r.order_id) : row ∈ st.store := by
  unfold orderStep at hmem
  split at hmem
  · exact hmem
  · split at hmem
    · exact update_mem_frame hmem hne
    · exact update_mem_frame hmem hne

theorem foldl_mem_frame (env : Env) (now : String) :
    ∀ (l : List OrderRow) (st : BatchState) (row : OrderRow),
      (∀ q ∈ l, row.order_id ≠ q.order_id) →
      row ∈ (l.foldl (orderStep env now) st).store → row ∈ st.store := by
  intro l
  induction l with
  | nil => intro st row _ h; exact h
  | cons r rest ih =>
    intro st row hq h
    have h1 := ih (orderStep env now st r) row
      (fun q hqm => hq q (List.mem_cons_of_mem _ hqm)) h
    exact orderStep_mem_frame h1 (hq r (List.mem_cons_self _ _))

theorem orderStep_sets {env : Env} {now : String} {st : BatchState}
    {r row : OrderRow}
    (hex : env.loopExn r = false)
    (hmem : row ∈ (orderStep env now st r).store)
    (heq : row.order_id = r.order_id) :
    row.status = (if attemptOk env r then "completed" else "failed")
    ∧ row.processed_at = now
    ∧ row.notes = (if attemptOk env r then "Ajouté automatiquement au panier"
                   else "Erreur: " ++ attemptMsg env r) := by
  by_cases hok : attemptOk env r = true
  · simp only [orderStep, hex, hok, Bool.false_eq_true, if_false, if_true] at hmem ⊢
    obtain ⟨h1, h2, h3⟩ := update_sets hmem heq
    exact ⟨h1, h2, h3 (by decide)⟩
  · have hok' : attemptOk env r = false := by simpa using hok
    simp only [orderStep, hex, hok', Bool.false_eq_true, if_false] at hmem ⊢
    obtain ⟨h1, h2, h3⟩ := update_sets hmem heq
    exact ⟨h1, h2, h3 (erreur_append_ne _)⟩

theorem foldl_sets_status (env : Env) (now : String) :
    ∀ (l : List OrderRow) (st : BatchState) (p : OrderRow),
      p ∈ l → ((l.map (fun q => q.order_id)).Nodup) → env.loopExn p = false →
      ∀ row ∈ (l.foldl (orderStep env now) st).store, row.order_id = p.order_id →
        row.status = (if attemptOk env p then "completed" else "failed")
        ∧ row.processed_at = now
        ∧ row.notes = (if attemptOk env p then "Ajouté automatiquement au panier"
                       else "Erreur: " ++ attemptMsg env p) := by
  intro l
  induction l with
  | nil => intro st p hp; exact absurd hp (List.not_mem_nil p)
  | cons r rest ih =>
    intro st p hp hnd hex row hrow heq
    rw [List.map_cons] at hnd
    have hnd1 := List.nodup_cons.mp hnd
    rcases List.mem_cons.mp hp with hpr | hpt
    · subst hpr
      have hrest : ∀ q ∈ rest, row.order_id ≠ q.order_id := by
        intro q hq hcon
        exact hnd1.1 (by
          rw [← heq, hcon]
          exact List.mem_map.mpr ⟨q, hq, rfl⟩)
      have hmem1 := foldl_mem_frame env now rest (orderStep env now st p) row hrest hrow
      exact orderStep_sets hex hmem1 heq
    · exact ih (orderStep env now st r) p hpt hnd1.2 hex row hrow heq

theorem orderStep_present (env : Env) (now : String) (st : BatchState)
    (r : OrderRow) (id2 : String) :
    present (orderStep env now st r).store id2 = present st.store id2 := by
  unfold orderStep
  split
  · rfl
  · split
    · exact update_present st.store r.order_id "completed" "Ajouté automatiquement au panier" now id2
    · exact update_present st.store r.order_id "failed" ("Erreur: " ++ attemptMsg env r) now id2

theorem foldl_present (env : Env) (now : String) :
    ∀ (l : List OrderRow) (st : BatchState) (id2 : String),
      present ((l.foldl (orderStep env now) st).store) id2 = present st.store id2 := by
  intro l
  induction l with
  | nil => intro st id2; rfl
  | cons r rest ih =>
    intro st id2
    rw [List.foldl_cons, ih, orderStep_present]

theorem foldl_writes (env : Env) (now : String) :
    ∀ (l : List OrderRow) (st : BatchState),
      (∀ p ∈ l, present st.store p.order_id = true) →
      (l.foldl (orderStep env now) st).writes
        = st.writes ++ (l.filter (fun p => !env.loopExn p)).map (writeOf env) := by
  intro l
  induction l with
  | nil => intro st _; simp
  | cons r rest ih =>
    intro st hpres
    have hpres' : ∀ p ∈ rest, present (orderStep env now st r).store p.order_id = true := by
      intro p hp
      rw [orderStep_present]
      exact hpres p (List.mem_cons_of_mem _ hp)
    rw [List.foldl_cons, ih (orderStep env now st r) hpres']
    by_cases hex : env.loopExn r = true
    · simp [orderStep, hex, List.filter_cons]
    · have hex' : env.loopExn r = false := by simpa using hex
      have hu : present st.store r.order_id = true := hpres r (List.mem_cons_self _ _)
      by_cases hok : attemptOk env r = true
      · simp [orderStep, hex', hok, List.filter_cons, update_fst, hu, writeOf]
      · have hok' : attemptOk env r = false := by simpa using hok
        simp [orderStep, hex', hok', List.filter_cons, update_fst, hu, writeOf]

/-! ### Helper lemmas: fallback chains -/

theorem waitForSel_mem {page : Page} {sel : Element → Bool} {e : Element}
    (h : waitForSel page sel = some e) : e ∈ page.elements := by
  unfold waitForSel at h
  exact List.mem_of_find?_eq_some h

theorem clickOk_of_disabled {e : Element}
    (h1 : isFormTag e.tag = true) (h2 : hasAttr e "disabled" = true) :
    clickOk e = false := by
  simp [clickOk, h1, h2]

theorem selectSizeChain_all_disabled {page : Page}
    (h : ∀ e ∈ page.elements, isFormTag e.tag = true ∧ hasAttr e "disabled" = true) :
    ∀ sels, selectSizeChain page sels = (false, []) := by
  intro sels
  induction sels with
  | nil => rfl
  | cons sel rest ih =>
    unfold selectSizeChain
    cases hw : waitForSel page sel with
    | none => exact ih
    | some e =>
      have he := waitForSel_mem hw
      have hck := clickOk_of_disabled (h e he).1 (h e he).2
      simp [hck, ih]

theorem selectSizeAlt_all_disabled (t : String) :
    ∀ (l : List Element),
      (∀ e ∈ l, isFormTag e.tag = true ∧ hasAttr e "disabled" = true) →
      selectSizeAlt t l = (false, []) := by
  intro l
  induction l with
  | nil => intro _; rfl
  | cons e rest ih =>
    intro h
    have hck := clickOk_of_disabled (h e (List.mem_cons_self _ _)).1
      (h e (List.mem_cons_self _ _)).2
    have ihr := ih (fun q hq => h q (List.mem_cons_of_mem _ hq))
    unfold selectSizeAlt
    split_ifs with h1 h2 h3 <;> simp_all

theorem clickCartChain_all_disabled {page : Page}
    (h : ∀ e ∈ page.elements, isFormTag e.tag = true ∧ hasAttr e "disabled" = true) :
    ∀ sels, clickCartChain page sels = (false, []) := by
  intro sels
  induction sels with
  | nil => rfl
  | cons sel rest ih =>
    unfold clickCartChain
    cases hw : waitForSel page sel with
    | none => exact ih
    | some e =>
      have he := waitForSel_mem hw
      have hck := clickOk_of_disabled (h e he).1 (h e he).2
      simp [hck, ih]

/-! ### Helper lemmas: quantity tiers -/

theorem countQplus_plusLoop (p : Element) : ∀ k, countQplus (plusLoop p k) = k := by
  intro k
  induction k with
  | zero => rfl
  | succ k ih => simp [plusLoop, countQplus, ih]

theorem setQtyTyped_count {page : Page} {n : Nat} :
    ∀ (sels : List (Element → Bool)) (acts : List QtyAct),
      setQtyTyped page n sels = some acts → countQplus acts = 0 := by
  intro sels
  induction sels with
  | nil => intro acts h; exact absurd h (by simp [setQtyTyped])
  | cons sel rest ih =>
    intro acts h
    unfold setQtyTyped at h
    cases hw : waitForSel page sel with
    | none => rw [hw] at h; exact ih acts h
    | some e =>
      rw [hw] at h
      by_cases hck : clickOk e = true
      · have h2 : some [QtyAct.qclick e, QtyAct.qfill e "", QtyAct.qtype e (toString n),
            QtyAct.qsleep] = some acts := by
          rw [← h]; simp [hck]
        cases h2
        rfl
      · have hck2 : clickOk e = false := by simpa using hck
        have h2 : setQtyTyped page n rest = some acts := by
          rw [← h]; simp [hck2]
        exact ih acts h2

theorem setQtyPlus_shape {page : Page} {n : Nat} (h2 : 2 ≤ n) :
    ∀ (sels : List (Element → Bool)) (acts : List QtyAct),
      setQtyPlus page n sels = some acts →
      ∃ p, acts = plusLoop p (n - 1) := by
  intro sels
  induction sels with
  | nil => intro acts h; exact absurd h (by simp [setQtyPlus])
  | cons sel rest ih =>
    intro acts h
    unfold setQtyPlus at h
    cases hw : waitForSel page sel with
    | none => rw [hw] at h; exact ih acts h
    | some p =>
      rw [hw] at h
      have hz : ((n - 1 == 0) : Bool) = false := by
        have hnz : n - 1 ≠ 0 := by omega
        simpa using hnz
      by_cases hck : clickOk p = true
      · have h2 : some (plusLoop p (n - 1)) = some acts := by
          rw [← h]; simp [hz, hck]
        cases h2
        exact ⟨p, rfl⟩
      · have hck2 : clickOk p = false := by simpa using hck
        have h2 : setQtyPlus page n rest = some acts := by
          rw [← h]; simp [hz, hck2]
        exact ih acts h2

/-! ### Helper lemmas: the per-order attempt -/

theorem attempt_raise {page : Page} {size color : String} {qty : Nat} {e : String}
    (hr : page.raiseMsg = some e) :
    add_product_to_cart page size color qty
      = ((false, "Erreur ajout produit: " ++ e), ⟨[], [], [], none⟩) := by
  unfold add_product_to_cart
  rw [hr]

theorem attempt_size_fail {page : Page} {size color : String} {qty : Nat}
    (hr : page.raiseMsg = none) (hv : is_valid_product_page page = true)
    (hs : ¬(size = "")) (hsel : (select_size page size).1 = false) :
    add_product_to_cart page size color qty
      = ((false, "Taille \x27" ++ size ++ "\x27 non trouvée ou non sélectionnable"),
         ⟨(select_size page size).2, [], [], none⟩) := by
  unfold add_product_to_cart
  rw [hr]
  simp [hv, hs, hsel]

theorem attempt_success {page : Page} {size color : String} {qty : Nat}
    (hr : page.raiseMsg = none) (hv : is_valid_product_page page = true)
    (hsize : size = "" ∨ (select_size page size).1 = true)
    (hcart : (click_add_to_cart page).1 = true)
    (hconf : confirm_cart_addition page = true) :
    (add_product_to_cart page size color qty).1 = (true, "Produit ajouté avec succès") := by
  unfold add_product_to_cart
  rw [hr]
  by_cases hsz : size = ""
  · simp [hv, hsz, hcart, hconf]
  · simp [hv, hsz, hsize.resolve_left hsz, hcart, hconf]

/-! ### Helper lemmas: the batch run -/

theorem pending_present {store : List OrderRow} {p : OrderRow}
    (hp : p ∈ pendingOrders store) : present store p.order_id = true := by
  unfold pendingOrders at hp
  exact List.any_eq_true.mpr ⟨p, List.mem_of_mem_filter hp, by simp⟩

theorem process_loop_eq (env : Env) (store : List OrderRow) (now : String)
    (htop : env.topExn = false) (hne : pendingOrders store ≠ []) :
    process_pending_orders env store now
      = ⟨⟨((pendingOrders store).foldl (orderStep env now) ⟨store, 0, 0, []⟩).success,
          ((pendingOrders store).foldl (orderStep env now) ⟨store, 0, 0, []⟩).failed,
          (pendingOrders store).length⟩,
         ((pendingOrders store).foldl (orderStep env now) ⟨store, 0, 0, []⟩).store,
         ((pendingOrders store).foldl (orderStep env now) ⟨store, 0, 0, []⟩).writes⟩ := by
  unfold process_pending_orders
  rw [htop]
  simp [List.isEmpty_iff, hne]

/-! ### Claim theorems -/

/-- C7: after a successful add-to-cart click, the confirmation chain of
`_confirm_cart_addition` classifies the outcome through its three ordered
tiers (explicit success text, then modal/overlay, then bounded wait), and
every tier — including the no-signal default — yields `Committed`; absence
of any signal is never classified as failure, barring an internal error
during the check. -/
theorem C7_confirmation_never_fails (page : Page)
    (h : page.confirmRaise = false) :
    confirm_cart_addition page = true := by
  unfold confirm_cart_addition
  rw [h]
  simp

theorem C7_confirmation_never_fails_witness :
    emptyPage.confirmRaise = false ∧ confirm_cart_addition emptyPage = true :=
  ⟨rfl, C7_confirmation_never_fails emptyPage rfl⟩

/-- C8: SessionStore round-trip — saving a cookie set and loading it back
yields a cookie set equal entry-by-entry (same name, value, domain) to the
one saved, including when no session file existed beforehand (`fs = none`);
and loading when no session file exists yields the empty cookie set without
error. -/
theorem C8_session_roundtrip (cookies : List CookieRecord)
    (fs : Option (List CookieRecord)) :
    load_cookies (save_cookies (some cookies) fs) = cookies
    ∧ List.Forall₂ (fun a b => a.name = b.name ∧ a.value = b.value ∧ a.domain = b.domain)
        cookies (load_cookies (save_cookies (some cookies) fs))
    ∧ load_cookies none = [] := by
  refine ⟨rfl, ?_, rfl⟩
  exact List.forall₂_same.mpr (fun x _ => ⟨rfl, rfl, rfl⟩)

theorem C8_session_roundtrip_witness :
    load_cookies (save_cookies (some [ckFix]) none) = [ckFix]
    ∧ load_cookies none = [] :=
  ⟨(C8_session_roundtrip [ckFix] none).1, (C8_session_roundtrip [ckFix] none).2.2⟩

/-- C9: for every order store and every combination of per-order outcomes
(success, failure, or an exception in the loop body), the counts returned by
`process_pending_orders` satisfy `success + failed = total`; the
empty-backlog and top-level-error paths return all-zero counts. -/
theorem C9_counts_conserved (env : Env) (store : List OrderRow) (now : String) :
    (process_pending_orders env store now).counts.success
      + (process_pending_orders env store now).counts.failed
      = (process_pending_orders env store now).counts.total
    ∧ (env.topExn = true → (process_pending_orders env store now).counts = ⟨0, 0, 0⟩)
    ∧ (pendingOrders store = [] → (process_pending_orders env store now).counts = ⟨0, 0, 0⟩) := by
  refine ⟨?_, ?_, ?_⟩
  · by_cases htop : env.topExn = true
    · simp [process_pending_orders, htop]
    · have htop2 : env.topExn = false := by simpa using htop
      by_cases hpe : pendingOrders store = []
      · unfold process_pending_orders
        rw [htop2]
        simp [hpe]
      · rw [process_loop_eq env store now htop2 hpe]
        have hc := countP_split (pendingOrders store) (okP env)
        rw [foldl_success, foldl_failed]
        simp
        omega
  · intro htop
    simp [process_pending_orders, htop]
  · intro hpe
    by_cases htop : env.topExn = true
    · simp [process_pending_orders, htop]
    · have htop2 : env.topExn = false := by simpa using htop
      unfold process_pending_orders
      rw [htop2]
      simp [hpe]

theorem C9_counts_conserved_witness :
    (process_pending_orders envOk storeOne "T").counts.success
      + (process_pending_orders envOk storeOne "T").counts.failed
      = (process_pending_orders envOk storeOne "T").counts.total
    ∧ (process_pending_orders envTop storeOne "T").counts = ⟨0, 0, 0⟩ :=
  ⟨(C9_counts_conserved envOk storeOne "T").1,
   (C9_counts_conserved envTop storeOne "T").2.1 rfl⟩

/-- C10: `update_order_status` touches only the rows whose `order_id`
matches, and there only the `status` and `processed_at` columns — `notes` is
written only when the given notes string is non-empty; when no row matches
it returns `False` and the store is unchanged. -/
theorem C10_update_frame (store : List OrderRow) (oid st notes now : String) :
    ((update_order_status store oid st notes now).1 = present store oid)
    ∧ ((update_order_status store oid st notes now).1 = false →
        (update_order_status store oid st notes now).2 = store)
    ∧ List.Forall₂ (fun r r2 =>
        (r.order_id ≠ oid → r2 = r)
        ∧ (r.order_id = oid →
            r2.order_id = r.order_id ∧ r2.user_phone = r.user_phone
            ∧ r2.user_name = r.user_name ∧ r2.product_url = r.product_url
            ∧ r2.size = r.size ∧ r2.color = r.color ∧ r2.quantity = r.quantity
            ∧ r2.estimated_price = r.estimated_price ∧ r2.created_at = r.created_at
            ∧ r2.status = st ∧ r2.processed_at = now
            ∧ (notes = "" → r2.notes = r.notes) ∧ (¬(notes = "") → r2.notes = notes)))
        store (update_order_status store oid st notes now).2 := by
  refine ⟨update_fst store oid st notes now, ?_, ?_⟩
  · intro h
    rw [update_fst] at h
    unfold update_order_status
    unfold present at h
    rw [h]
    simp
  · by_cases ha : store.any (fun r => r.order_id == oid) = true
    · unfold update_order_status
      rw [if_pos ha]
      rw [List.forall₂_map_right_iff]
      refine List.forall₂_same.mpr (fun r hr => ⟨?_, ?_⟩)
      · intro hne
        rw [if_neg (by simpa using hne)]
      · intro heq
        rw [if_pos (by simpa using heq)]
        refine ⟨rfl, rfl, rfl, rfl, rfl, rfl, rfl, rfl, rfl, rfl, rfl, ?_, ?_⟩
        · intro hn
          simp [applyUpd, hn]
        · intro hn
          simp [applyUpd, hn]
    · unfold update_order_status
      rw [if_neg ha]
      exact List.forall₂_same.mpr (fun r hr =>
        ⟨fun _ => rfl,
         fun heq => absurd (List.any_eq_true.mpr ⟨r, hr, by simp [heq]⟩) ha⟩)

theorem C10_update_frame_witness :
    (update_order_status storeTwo "ZZZ" "failed" "note" "T").2 = storeTwo :=
  (C10_update_frame storeTwo "ZZZ" "failed" "note" "T").2.1 (by decide)

/-- C4 counterexample: on a page whose only element is visible but marked
with the "disabled" style class (a `div` matching the first size selector
`[data-testid="size-M"]`), the claim would require resolution to report
NotFound and click nothing — yet `_select_size` clicks that element and
reports success: the first two size candidates apply no disabled-class
filtering. -/
theorem C4_counterexample :
    hasSub "disabled" (className cexSizeElem) = true
    ∧ cexSizeElem.visible = true
    ∧ (∀ e ∈ cexSizePage.elements, hasSub "disabled" (className e) = true)
    ∧ select_size cexSizePage "M" = (true, [cexSizeElem]) := by
  refine ⟨by decide, rfl, by decide, by decide⟩

/-- C4 (amended): candidates are tried strictly in declared order and the
first visible match that survives the filters of that candidate and
the Playwright click actionability is clicked; only the disabled *attribute*
on form controls is uniformly respected (via actionability, the explicit
attribute check of `_click_add_to_cart`, and the attribute/class checks of
the alternative size tier), while elements marked disabled only by a style
class are filtered by some candidates but clicked by others.  Hence: when
every element of the page is a form control bearing the `disabled`
attribute, both size resolution and add-to-cart resolution return NotFound
and click nothing. -/
theorem C4_amended_disabled_attribute (page : Page) (t : String)
    (h : ∀ e ∈ page.elements, isFormTag e.tag = true ∧ hasAttr e "disabled" = true) :
    select_size page t = (false, [])
    ∧ click_add_to_cart page = (false, []) := by
  constructor
  · have h1 := selectSizeChain_all_disabled h (sizeSelectors t)
    have h2 := selectSizeAlt_all_disabled t (page.elements.filter altSizeScanSel)
      (fun e he => h e (List.mem_of_mem_filter he))
    simp [select_size, h1, h2]
  · exact clickCartChain_all_disabled h cartSelectors

theorem C4_amended_disabled_attribute_witness :
    select_size allDisabledPage "M" = (false, [])
    ∧ click_add_to_cart allDisabledPage = (false, []) :=
  C4_amended_disabled_attribute allDisabledPage "M" (by decide)

/-- C6: with requested quantity `n ≤ 1` the attempt performs no
quantity-related DOM interaction (`_set_quantity` is never called); with
`n > 1` the typed quantity-input chain is attempted first (and performs no
stepper click), and only when none of its candidates resolves does the
stepper fallback click the increment control exactly `n - 1` times, each
invocation followed by a settle delay (the `qsleep` after each `qplus` in
`plusLoop`). -/
theorem C6_quantity (page : Page) (size color : String) (n : Nat) :
    (n ≤ 1 → ((add_product_to_cart page size color n).2).qtyActs = [])
    ∧ (∀ acts, setQtyTyped page n qtySelectors = some acts →
        set_quantity page n = (true, acts) ∧ countQplus acts = 0)
    ∧ (2 ≤ n → setQtyTyped page n qtySelectors = none →
        ∀ acts, set_quantity page n = (true, acts) →
          countQplus acts = n - 1 ∧ ∃ p, acts = plusLoop p (n - 1)) := by
  refine ⟨?_, ?_, ?_⟩
  · intro h1
    have hq : ¬(1 < n) := by omega
    unfold add_product_to_cart
    cases hr : page.raiseMsg with
    | some e => rfl
    | none =>
      simp only []
      split_ifs <;> simp [hq]
  · intro acts hty
    refine ⟨?_, setQtyTyped_count qtySelectors acts hty⟩
    unfold set_quantity
    rw [hty]
  · intro h2 hnone acts hset
    unfold set_quantity at hset
    rw [hnone] at hset
    cases hp : setQtyPlus page n plusSelectors with
    | none =>
      rw [hp] at hset
      simp at hset
    | some acts2 =>
      rw [hp] at hset
      have hacts : acts2 = acts := by
        simpa using hset
      subst hacts
      obtain ⟨p, hpl⟩ := setQtyPlus_shape h2 plusSelectors acts2 hp
      subst hpl
      exact ⟨countQplus_plusLoop p _, ⟨p, rfl⟩⟩

theorem C6_quantity_witness :
    ((add_product_to_cart goodPage "" "" 1).2).qtyActs = []
    ∧ set_quantity stepperPage 3
        = (true, [QtyAct.qplus plusBtn, QtyAct.qsleep, QtyAct.qplus plusBtn, QtyAct.qsleep])
    ∧ countQplus (set_quantity stepperPage 3).2 = 2 := by
  refine ⟨(C6_quantity goodPage "" "" 1).1 (by omega), by decide, ?_⟩
  have h := (C6_quantity stepperPage "" "" 3).2.2 (by omega) (by decide)
    ((set_quantity stepperPage 3).2) (by decide)
  simpa using h.1

/-- C1: for a batch whose pending orders split as `A ++ k :: B` (so
`N = |A| + |B| + 1 ≥ 1`), where every order of `A` and `B` succeeds its
add-to-cart attempt, `k` fails it, and no loop-level exception occurs,
`process_pending_orders` processes all N orders and returns counts
`success = N - 1`, `failed = 1`, `total = N`; it marks `k` `failed` and
every other order `completed` — the failure of one order never prevents the
remaining orders from being attempted. -/
theorem C1_single_failure_isolated (env : Env) (store : List OrderRow) (now : String)
    (A B : List OrderRow) (k : OrderRow)
    (htop : env.topExn = false)
    (hpend : pendingOrders store = A ++ k :: B)
    (hnodup : ((A ++ k :: B).map (fun q => q.order_id)).Nodup)
    (hexn : ∀ p ∈ A ++ k :: B, env.loopExn p = false)
    (hA : ∀ p ∈ A, attemptOk env p = true)
    (hB : ∀ p ∈ B, attemptOk env p = true)
    (hk : attemptOk env k = false) :
    (process_pending_orders env store now).counts.success = A.length + B.length
    ∧ (process_pending_orders env store now).counts.failed = 1
    ∧ (process_pending_orders env store now).counts.total = A.length + B.length + 1
    ∧ present (process_pending_orders env store now).store k.order_id = true
    ∧ (∀ row ∈ (process_pending_orders env store now).store,
        row.order_id = k.order_id → row.status = "failed")
    ∧ (∀ p ∈ A ++ B,
        present (process_pending_orders env store now).store p.order_id = true
        ∧ (∀ row ∈ (process_pending_orders env store now).store,
            row.order_id = p.order_id → row.status = "completed")) := by
  have hne : pendingOrders store ≠ [] := by
    rw [hpend]; simp
  have hkmem : k ∈ pendingOrders store := by
    rw [hpend]; exact List.mem_append_right A (List.mem_cons_self _ _)
  have hokA : ∀ p ∈ A, okP env p = true := by
    intro p hp
    have hpm : p ∈ A ++ k :: B := List.mem_append_left _ hp
    simp [okP, hexn p hpm, hA p hp]
  have hokB : ∀ p ∈ B, okP env p = true := by
    intro p hp
    have hpm : p ∈ A ++ k :: B :=
      List.mem_append_right A (List.mem_cons_of_mem _ hp)
    simp [okP, hexn p hpm, hB p hp]
  have hokk : okP env k = false := by
    simp [okP, hexn k (List.mem_append_right A (List.mem_cons_self _ _)), hk]
  rw [process_loop_eq env store now htop hne]
  refine ⟨?_, ?_, ?_, ?_, ?_, ?_⟩
  · show ((pendingOrders store).foldl (orderStep env now) ⟨store, 0, 0, []⟩).success
        = A.length + B.length
    rw [foldl_success, hpend, List.countP_append, List.countP_cons,
      List.countP_eq_length.mpr hokA, List.countP_eq_length.mpr hokB, hokk]
    simp
  · show ((pendingOrders store).foldl (orderStep env now) ⟨store, 0, 0, []⟩).failed = 1
    rw [foldl_failed, hpend, List.countP_append, List.countP_cons]
    have hzA : A.countP (fun p => !okP env p) = 0 := by
      rw [List.countP_eq_zero]
      intro p hp
      simp [hokA p hp]
    have hzB : B.countP (fun p => !okP env p) = 0 := by
      rw [List.countP_eq_zero]
      intro p hp
      simp [hokB p hp]
    rw [hzA, hzB, hokk]
    simp
  · show (pendingOrders store).length = A.length + B.length + 1
    rw [hpend]
    simp [List.length_append]
    omega
  · show present ((pendingOrders store).foldl (orderStep env now) ⟨store, 0, 0, []⟩).store
        k.order_id = true
    rw [foldl_present]
    exact pending_present hkmem
  · intro row hrow heq
    have hst := foldl_sets_status env now (pendingOrders store) ⟨store, 0, 0, []⟩ k
      hkmem (hpend ▸ hnodup) (hexn k (List.mem_append_right A (List.mem_cons_self _ _)))
      row hrow heq
    rw [hk] at hst
    simpa using hst.1
  · intro p hp
    have hpm : p ∈ A ++ k :: B := by
      rcases List.mem_append.mp hp with h1 | h1
      · exact List.mem_append_left _ h1
      · exact List.mem_append_right A (List.mem_cons_of_mem _ h1)
    have hpmem : p ∈ pendingOrders store := by
      rw [hpend]; exact hpm
    have hok : attemptOk env p = true := by
      rcases List.mem_append.mp hp with h1 | h1
      · exact hA p h1
      · exact hB p h1
    constructor
    · rw [foldl_present]
      exact pending_present hpmem
    · intro row hrow heq
      have hst := foldl_sets_status env now (pendingOrders store) ⟨store, 0, 0, []⟩ p
        hpmem (hpend ▸ hnodup) (hexn p hpm) row hrow heq
      rw [hok] at hst
      simpa using hst.1

theorem C1_single_failure_isolated_witness :
    (process_pending_orders envOk storeTwo "T").counts.success = 1
    ∧ (process_pending_orders envOk storeTwo "T").counts.failed = 1
    ∧ (process_pending_orders envOk storeTwo "T").counts.total = 2
    ∧ (∀ row ∈ (process_pending_orders envOk storeTwo "T").store,
        row.order_id = rowSizeK.order_id → row.status = "failed") := by
  have h := C1_single_failure_isolated envOk storeTwo "T" [rowOkA] [] rowSizeK
    rfl (by decide) (by decide) (by decide) (by decide) (by decide) (by decide)
  exact ⟨by simpa using h.1, h.2.1, by simpa using h.2.2.1, h.2.2.2.2.1⟩

/-- C2 counterexample: a concrete one-order batch is processed to completion,
and the complete list of status writes performed by the batch is a single
write, directly to "completed" — no write of "processing" ever happens (the
string "processing" occurs nowhere in the source), contradicting the claimed
pending → processing → {completed, failed} write sequence. -/
theorem C2_counterexample :
    (process_pending_orders envOk storeOne "T").writes
      = [("CMD1", "completed", "Ajouté automatiquement au panier")]
    ∧ (∀ w ∈ (process_pending_orders envOk storeOne "T").writes, w.2.1 ≠ "processing") := by
  exact ⟨by decide, by decide⟩

/-- C2 (amended): the batch processor never writes a "processing" status:
every status write it performs is directly to "completed" or "failed", and
(when the fetched pending orders carry distinct ids) each order receives at
most one status write per run — "failed" is terminal within the run and no
automatic retry occurs in the same batch. -/
theorem C2_amended_direct_writes (env : Env) (store : List OrderRow) (now : String)
    (hnodup : ((pendingOrders store).map (fun q => q.order_id)).Nodup) :
    (∀ w ∈ (process_pending_orders env store now).writes,
        w.2.1 = "completed" ∨ w.2.1 = "failed")
    ∧ ((process_pending_orders env store now).writes.map (fun w => w.1)).Nodup := by
  by_cases htop : env.topExn = true
  · simp [process_pending_orders, htop]
  · have htop2 : env.topExn = false := by simpa using htop
    by_cases hpe : pendingOrders store = []
    · unfold process_pending_orders
      rw [htop2]
      simp [hpe]
    · rw [process_loop_eq env store now htop2 hpe]
      have hpres : ∀ p ∈ pendingOrders store, present store p.order_id = true :=
        fun p hp => pending_present hp
      have hw := foldl_writes env now (pendingOrders store) ⟨store, 0, 0, []⟩ hpres
      constructor
      · intro w hwm
        rw [hw] at hwm
        simp only [List.nil_append] at hwm
        obtain ⟨p, hp, hwp⟩ := List.mem_map.mp hwm
        rw [← hwp]
        unfold writeOf
        by_cases hok : attemptOk env p = true
        · left; simp [hok]
        · have hok2 : attemptOk env p = false := by simpa using hok
          right; simp [hok2]
      · show (((pendingOrders store).foldl (orderStep env now)
            ⟨store, 0, 0, []⟩).writes.map (fun w => w.1)).Nodup
        rw [hw]
        simp only [List.nil_append, List.map_map]
        have hcomp : ((fun w => w.1) ∘ writeOf env) = (fun q : OrderRow => q.order_id) := rfl
        rw [hcomp]
        exact List.Nodup.sublist
          (List.Sublist.map _ (List.filter_sublist (pendingOrders store))) hnodup

theorem C2_amended_direct_writes_witness :
    (∀ w ∈ (process_pending_orders envOk storeTwo "T").writes,
        w.2.1 = "completed" ∨ w.2.1 = "failed")
    ∧ ((process_pending_orders envOk storeTwo "T").writes.map (fun w => w.1)).Nodup :=
  C2_amended_direct_writes envOk storeTwo "T" (by decide)

/-- C3 counterexample: a two-order batch whose first order hits a
browser-level fatal error ("Browser crash", raised during the attempt) does
NOT abort: the error is caught at the order boundary and converted into a
per-order "failed" status with a note, the second order is still attempted
and reaches "completed", and the run returns normally to the caller with
counts 1/1/2 — contradicting the claim that such errors propagate out of the
batch run and abort the remaining orders. -/
theorem C3_counterexample :
    (process_pending_orders envCrash storeCrash "T").counts = ⟨1, 1, 2⟩
    ∧ (process_pending_orders envCrash storeCrash "T").store
      = [rowCrash1Failed, rowOk2Completed] := by
  exact ⟨by decide, by decide⟩

/-- C3 (amended): no error propagates out of `process_pending_orders`.
An exception raised during the add-to-cart attempt of an order — including a
browser-level fatal one — is caught at the order boundary and converted into
a "failed" status whose note carries the exception text, and the batch still
processes every fetched pending order (`total` equals the backlog size and
every order contributes to `success + failed`). -/
theorem C3_amended_fatal_caught (env : Env) (store : List OrderRow) (now : String)
    (r : OrderRow) (e : String)
    (htop : env.topExn = false)
    (hmem : r ∈ pendingOrders store)
    (hnodup : ((pendingOrders store).map (fun q => q.order_id)).Nodup)
    (hexn : env.loopExn r = false)
    (hraise : (env.pages r.product_url).raiseMsg = some e) :
    (∀ row ∈ (process_pending_orders env store now).store,
        row.order_id = r.order_id →
          row.status = "failed"
          ∧ row.notes = "Erreur: " ++ ("Erreur ajout produit: " ++ e))
    ∧ (process_pending_orders env store now).counts.total = (pendingOrders store).length
    ∧ (process_pending_orders env store now).counts.success
        + (process_pending_orders env store now).counts.failed
        = (pendingOrders store).length := by
  have hne : pendingOrders store ≠ [] := List.ne_nil_of_mem hmem
  have hok : attemptOk env r = false := by
    simp [attemptOk, attempt_raise hraise]
  have hmsg : attemptMsg env r = "Erreur ajout produit: " ++ e := by
    simp [attemptMsg, attempt_raise hraise]
  rw [process_loop_eq env store now htop hne]
  refine ⟨?_, rfl, ?_⟩
  · intro row hrow heq
    have hst := foldl_sets_status env now (pendingOrders store) ⟨store, 0, 0, []⟩ r
      hmem hnodup hexn row hrow heq
    rw [hok, hmsg] at hst
    exact ⟨by simpa using hst.1, by simpa using hst.2.2⟩
  · rw [foldl_success, foldl_failed]
    have hc := countP_split (pendingOrders store) (okP env)
    simp
    omega

theorem C3_amended_fatal_caught_witness :
    (∀ row ∈ (process_pending_orders envCrash storeCrash "T").store,
        row.order_id = rowCrash1.order_id →
          row.status = "failed"
          ∧ row.notes = "Erreur: " ++ ("Erreur ajout produit: " ++ "Browser crash"))
    ∧ (process_pending_orders envCrash storeCrash "T").counts.total
        = (pendingOrders storeCrash).length :=
  ⟨(C3_amended_fatal_caught envCrash storeCrash "T" rowCrash1 "Browser crash"
      rfl (by decide) (by decide) rfl (by decide)).1,
   (C3_amended_fatal_caught envCrash storeCrash "T" rowCrash1 "Browser crash"
      rfl (by decide) (by decide) rfl (by decide)).2.1⟩

/-- C5: size is a hard requirement, color a soft one.
(1) For an attempt on a valid product page with a non-empty size whose size
token cannot be resolved, `add_product_to_cart` fails with the message
naming the requested size and never invokes `_click_add_to_cart`.
(2) In the batch, such an order ends with status "failed" and a note
mentioning the requested size.
(3) An attempt whose color token cannot be resolved but whose remaining
steps succeed still returns success (processing continues with the default
color of the page), and
(4) in the batch such an order still ends "completed". -/
theorem C5_size_hard_color_soft :
    (∀ (page : Page) (size color : String) (qty : Nat),
        page.raiseMsg = none → is_valid_product_page page = true →
        ¬(size = "") → (select_size page size).1 = false →
          (add_product_to_cart page size color qty).1
            = (false, "Taille \x27" ++ size ++ "\x27 non trouvée ou non sélectionnable")
          ∧ hasSub size ((add_product_to_cart page size color qty).1).2 = true
          ∧ ((add_product_to_cart page size color qty).2).cartCall = none)
    ∧ (∀ (env : Env) (store : List OrderRow) (now : String) (r : OrderRow),
        env.topExn = false → r ∈ pendingOrders store →
        ((pendingOrders store).map (fun q => q.order_id)).Nodup →
        env.loopExn r = false →
        (env.pages r.product_url).raiseMsg = none →
        is_valid_product_page (env.pages r.product_url) = true →
        ¬(r.size = "") → (select_size (env.pages r.product_url) r.size).1 = false →
        ∀ row ∈ (process_pending_orders env store now).store,
          row.order_id = r.order_id →
            row.status = "failed" ∧ hasSub r.size row.notes = true)
    ∧ (∀ (page : Page) (size color : String) (qty : Nat),
        page.raiseMsg = none → is_valid_product_page page = true →
        (size = "" ∨ (select_size page size).1 = true) →
        (select_color page color).1 = false →
        (click_add_to_cart page).1 = true → confirm_cart_addition page = true →
          (add_product_to_cart page size color qty).1
            = (true, "Produit ajouté avec succès"))
    ∧ (∀ (env : Env) (store : List OrderRow) (now : String) (r : OrderRow),
        env.topExn = false → r ∈ pendingOrders store →
        ((pendingOrders store).map (fun q => q.order_id)).Nodup →
        env.loopExn r = false →
        (env.pages r.product_url).raiseMsg = none →
        is_valid_product_page (env.pages r.product_url) = true →
        (r.size = "" ∨ (select_size (env.pages r.product_url) r.size).1 = true) →
        (select_color (env.pages r.product_url) r.color).1 = false →
        (click_add_to_cart (env.pages r.product_url)).1 = true →
        confirm_cart_addition (env.pages r.product_url) = true →
        ∀ row ∈ (process_pending_orders env store now).store,
          row.order_id = r.order_id → row.status = "completed") := by
  have hmsgSub : ∀ size : String,
      hasSub size ("Taille \x27" ++ size ++ "\x27 non trouvée ou non sélectionnable") = true :=
    fun size => hasSub_mid "Taille \x27" size "\x27 non trouvée ou non sélectionnable"
  refine ⟨?_, ?_, ?_, ?_⟩
  · intro page size color qty hr hv hs hsel
    rw [attempt_size_fail hr hv hs hsel]
    exact ⟨rfl, hmsgSub size, rfl⟩
  · intro env store now r htop hmem hnodup hexn hr hv hs hsel row hrow heq
    have hne : pendingOrders store ≠ [] := List.ne_nil_of_mem hmem
    have hatt := @attempt_size_fail (env.pages r.product_url) r.size r.color r.quantity
      hr hv hs hsel
    have hok : attemptOk env r = false := by
      simp [attemptOk, hatt]
    have hmsg : attemptMsg env r
        = "Taille \x27" ++ r.size ++ "\x27 non trouvée ou non sélectionnable" := by
      simp [attemptMsg, hatt]
    rw [process_loop_eq env store now htop hne] at hrow
    have hst := foldl_sets_status env now (pendingOrders store) ⟨store, 0, 0, []⟩ r
      hmem hnodup hexn row hrow heq
    rw [hok, hmsg] at hst
    refine ⟨by simpa using hst.1, ?_⟩
    have hnotes := hst.2.2
    simp only [Bool.false_eq_true, if_false] at hnotes
    rw [hnotes, ← String.append_assoc, ← String.append_assoc]
    exact hasSub_mid ("Erreur: " ++ "Taille \x27") r.size "\x27 non trouvée ou non sélectionnable"
  · intro page size color qty hr hv hsize hcolor hcart hconf
    exact attempt_success hr hv hsize hcart hconf
  · intro env store now r htop hmem hnodup hexn hr hv hsize hcolor hcart hconf row hrow heq
    have hne : pendingOrders store ≠ [] := List.ne_nil_of_mem hmem
    have hok : attemptOk env r = true := by
      unfold attemptOk
      rw [attempt_success hr hv hsize hcart hconf]
    rw [process_loop_eq env store now htop hne] at hrow
    have hst := foldl_sets_status env now (pendingOrders store) ⟨store, 0, 0, []⟩ r
      hmem hnodup hexn row hrow heq
    rw [hok] at hst
    simpa using hst.1

theorem C5_size_hard_color_soft_witness :
    ((add_product_to_cart goodPage "M" "" 1).1
        = (false, "Taille \x27M\x27 non trouvée ou non sélectionnable"))
    ∧ hasSub "M" ((add_product_to_cart goodPage "M" "" 1).1).2 = true
    ∧ ((add_product_to_cart goodPage "M" "" 1).2).cartCall = none
    ∧ (∀ row ∈ (process_pending_orders envOk storeTwo "T").store,
        row.order_id = rowSizeK.order_id →
          row.status = "failed" ∧ hasSub rowSizeK.size row.notes = true) := by
  have h1 := C5_size_hard_color_soft.1 goodPage "M" "" 1 rfl (by decide) (by decide) (by decide)
  have h2 := C5_size_hard_color_soft.2.1 envOk storeTwo "T" rowSizeK rfl (by decide)
    (by decide) rfl rfl (by decide) (by decide) (by decide)
  exact ⟨by simpa using h1.1, h1.2.1, h1.2.2, h2⟩
